import Mathlib

/-!
Verification of the newnotes embeddings service against its specification.

The service (app/models.py and app/main.py) wraps a pre-trained sentence
embedding model behind two HTTP routes. The third-party model library is
not part of the repository; its behaviour, as far as the wrapper relies on
it, is modelled from the specification. Everything else is translated from
the source.
-/

/-- Default model name, the literal used in EmbeddingModel.__init__ and in
the pydantic request schemas (models.py line 15, main.py lines 41 and 46). -/
def defaultModelName : String := "all-MiniLM-L6-v2"

/-- Modelled from the spec: the third-party SentenceTransformer object
loaded by the wrapper. Its encode call is deterministic inference (a pure
function), may fail with an infrastructure error carrying a message, and
every successful encoding has the fixed per-model dimension reported by
get_sentence_embedding_dimension. -/
structure SentenceTransformer where
  encode : String → Except String (List Float)
  sentence_embedding_dimension : Nat
  encode_dim : ∀ t v, encode t = Except.ok v → v.length = sentence_embedding_dimension

/-- Modelled from the spec: calling encode on a list of texts returns one
embedding per input, in the same order, with the batch row for a text equal
to the single encoding of that text; a failure while encoding any item
fails the whole call (no partial result). -/
def SentenceTransformer.encodeList (st : SentenceTransformer) : List String → Except String (List (List Float))
  | [] => Except.ok []
  | t :: ts =>
    match st.encode t with
    | Except.error e => Except.error e
    | Except.ok v =>
      match st.encodeList ts with
      | Except.error e => Except.error e
      | Except.ok vs => Except.ok (v :: vs)

/-- Modelled from the spec: the catalogue of pre-trained models the library
can load onto a device; the default model all-MiniLM-L6-v2 has embedding
dimension 384. -/
structure ModelLibrary where
  load : String → String → SentenceTransformer
  load_default_dim : ∀ d, (load defaultModelName d).sentence_embedding_dimension = 384

/-- State of the wrapper after EmbeddingModel.__init__ (models.py lines 15-21):
the requested name, the selected device and the loaded model. -/
structure EmbeddingModel where
  model_name : String
  device : String
  model : SentenceTransformer

/-- EmbeddingModel.__init__ (models.py lines 15-21): record the name, pick
cuda when available else cpu, and load the named model on that device. -/
def EmbeddingModel.init (lib : ModelLibrary) (cuda_available : Bool) (model_name : String) : EmbeddingModel :=
  let device := if cuda_available then "cuda" else "cpu"
  ⟨model_name, device, lib.load model_name device⟩

/-- EmbeddingModel() with the default argument of __init__ (models.py line 15). -/
def EmbeddingModel.initDefault (lib : ModelLibrary) (cuda_available : Bool) : EmbeddingModel :=
  EmbeddingModel.init lib cuda_available defaultModelName

/-- EmbeddingModel.generate_embedding (models.py lines 23-34): delegate the
single text to the model. -/
def EmbeddingModel.generate_embedding (m : EmbeddingModel) (text : String) : Except String (List Float) :=
  m.model.encode text

/-- EmbeddingModel.generate_embeddings_batch (models.py lines 36-47):
delegate the whole list to the model in one call. -/
def EmbeddingModel.generate_embeddings_batch (m : EmbeddingModel) (texts : List String) : Except String (List (List Float)) :=
  m.model.encodeList texts

/-- EmbeddingModel.get_dimension (models.py lines 49-51). -/
def EmbeddingModel.get_dimension (m : EmbeddingModel) : Nat :=
  m.model.sentence_embedding_dimension

/-- get_model (models.py lines 58-63) with the global _model_instance made
explicit: given the current global state, return the instance and the new
state, creating the instance only when the state is None. -/
def get_model (create : Unit → EmbeddingModel) (state : Option EmbeddingModel) : EmbeddingModel × Option EmbeddingModel :=
  match state with
  | some m => (m, some m)
  | none =>
    let m := create ()
    (m, some m)

/-- Number of EmbeddingModel constructions one get_model call performs from
the given global state: one when the state is None, zero otherwise. -/
def get_model_creations (state : Option EmbeddingModel) : Nat :=
  match state with
  | some _ => 0
  | none => 1

/-- A run of n successive get_model calls from a given global state:
final state and total number of constructions performed. -/
def run_get_model (create : Unit → EmbeddingModel) : Nat → Option EmbeddingModel → Option EmbeddingModel × Nat
  | 0, s => (s, 0)
  | n + 1, s =>
    let r := get_model create s
    let rest := run_get_model create n r.2
    (rest.1, get_model_creations s + rest.2)

/-- Validated body of POST /api/embeddings/generate (main.py lines 39-41):
text with pydantic min_length 1, model defaulting to the default name. -/
structure EmbeddingRequest where
  text : String
  model : String

/-- Validated body of POST /api/embeddings/generate/batch (main.py lines
44-46): texts with pydantic min_items 1, model defaulting. -/
structure BatchEmbeddingRequest where
  texts : List String
  model : String

/-- Response body of the single route (main.py lines 49-52). -/
structure EmbeddingResponse where
  embedding : List Float
  model : String
  dimension : Nat

/-- Response body of the batch route (main.py lines 55-59). -/
structure BatchEmbeddingResponse where
  embeddings : List (List Float)
  model : String
  dimension : Nat
  count : Nat

/-- Outcome of a route as seen on the wire: a 200 body, or an HTTPException
style status code with detail string. -/
inductive HttpReply (α : Type) where
  | success : α → HttpReply α
  | failure : Nat → String → HttpReply α

/-- HTTP status code carried by a reply (200 on success). -/
def HttpReply.status {α : Type} : HttpReply α → Nat
  | HttpReply.success _ => 200
  | HttpReply.failure code _ => code

/-- Raw JSON body of the single route before pydantic validation: each field
present or absent. -/
structure RawEmbeddingRequest where
  text : Option String
  model : Option String

/-- Raw JSON body of the batch route before pydantic validation. -/
structure RawBatchEmbeddingRequest where
  texts : Option (List String)
  model : Option String

/-- Pydantic validation of EmbeddingRequest (main.py lines 39-41): text is
required with min_length 1, model falls back to its declared default. The
error carries a 422 detail. -/
def validateEmbeddingRequest (raw : RawEmbeddingRequest) : Except String EmbeddingRequest :=
  match raw.text with
  | none => Except.error "field required: text"
  | some t =>
    if t.length < 1 then Except.error "ensure this value has at least 1 characters"
    else Except.ok ⟨t, raw.model.getD defaultModelName⟩

/-- Pydantic validation of BatchEmbeddingRequest (main.py lines 44-46):
texts is required with min_items 1, model falls back to its default. -/
def validateBatchEmbeddingRequest (raw : RawBatchEmbeddingRequest) : Except String BatchEmbeddingRequest :=
  match raw.texts with
  | none => Except.error "field required: texts"
  | some ts =>
    if ts.length < 1 then Except.error "ensure this value has at least 1 items"
    else Except.ok ⟨ts, raw.model.getD defaultModelName⟩

/-- Handler body of POST /api/embeddings/generate (main.py lines 97-124):
reject a mismatching model name with 400, otherwise encode; an HTTPException
is re-raised as is, any other failure becomes a 500 whose detail embeds the
original message. -/
def generate_embedding_route (m : EmbeddingModel) (request : EmbeddingRequest) : HttpReply EmbeddingResponse :=
  if request.model ≠ m.model_name then
    HttpReply.failure 400 ("Model " ++ request.model ++ " not supported. Only " ++ m.model_name ++ " is available.")
  else
    match m.generate_embedding request.text with
    | Except.ok embedding => HttpReply.success ⟨embedding, m.model_name, m.get_dimension⟩
    | Except.error e => HttpReply.failure 500 ("Failed to generate embedding: " ++ e)

/-- Handler body of POST /api/embeddings/generate/batch (main.py lines
138-166): same model name check, then one batch encode; count is the length
of the produced list. -/
def generate_embeddings_batch_route (m : EmbeddingModel) (request : BatchEmbeddingRequest) : HttpReply BatchEmbeddingResponse :=
  if request.model ≠ m.model_name then
    HttpReply.failure 400 ("Model " ++ request.model ++ " not supported. Only " ++ m.model_name ++ " is available.")
  else
    match m.generate_embeddings_batch request.texts with
    | Except.ok embeddings => HttpReply.success ⟨embeddings, m.model_name, m.get_dimension, embeddings.length⟩
    | Except.error e => HttpReply.failure 500 ("Failed to generate embeddings: " ++ e)

/-- Full single route as FastAPI runs it: schema validation answers 422
before the handler body is entered, otherwise the handler runs. -/
def handle_generate (m : EmbeddingModel) (raw : RawEmbeddingRequest) : HttpReply EmbeddingResponse :=
  match validateEmbeddingRequest raw with
  | Except.error detail => HttpReply.failure 422 detail
  | Except.ok request => generate_embedding_route m request

/-- Full batch route as FastAPI runs it. -/
def handle_generate_batch (m : EmbeddingModel) (raw : RawBatchEmbeddingRequest) : HttpReply BatchEmbeddingResponse :=
  match validateBatchEmbeddingRequest raw with
  | Except.error detail => HttpReply.failure 422 detail
  | Except.ok request => generate_embeddings_batch_route m request

/-- Full single route with the global _model_instance threaded through: a
422 never reaches the handler, otherwise the handler fetches the singleton
via get_model and serves the request. -/
def handle_generate_stateful (create : Unit → EmbeddingModel) (state : Option EmbeddingModel)
    (raw : RawEmbeddingRequest) : HttpReply EmbeddingResponse × Option EmbeddingModel :=
  match validateEmbeddingRequest raw with
  | Except.error detail => (HttpReply.failure 422 detail, state)
  | Except.ok request =>
    let r := get_model create state
    (generate_embedding_route r.1 request, r.2)

/-- A successful batch encode yields exactly one vector per input. -/
theorem SentenceTransformer.encodeList_length (st : SentenceTransformer) :
    ∀ (ts : List String) (vs : List (List Float)),
      st.encodeList ts = Except.ok vs → vs.length = ts.length := by
  intro ts
  induction ts with
  | nil =>
    intro vs h
    simp [SentenceTransformer.encodeList] at h
    simp [← h]
  | cons t ts ih =>
    intro vs h
    simp only [SentenceTransformer.encodeList] at h
    cases he : st.encode t with
    | error e => rw [he] at h; cases h
    | ok v =>
      rw [he] at h
      cases hrest : st.encodeList ts with
      | error e => rw [hrest] at h; cases h
      | ok vs0 =>
        rw [hrest] at h
        cases h
        simp [ih vs0 hrest]

/-- A successful batch encode agrees with the single encode at every index. -/
theorem SentenceTransformer.encodeList_get (st : SentenceTransformer) :
    ∀ (ts : List String) (vs : List (List Float)),
      st.encodeList ts = Except.ok vs →
      ∀ (i : Nat) (hi : i < ts.length) (hv : i < vs.length),
        st.encode (ts.get ⟨i, hi⟩) = Except.ok (vs.get ⟨i, hv⟩) := by
  intro ts
  induction ts with
  | nil =>
    intro vs h i hi hv
    cases hi
  | cons t ts ih =>
    intro vs h i hi hv
    simp only [SentenceTransformer.encodeList] at h
    cases he : st.encode t with
    | error e => rw [he] at h; cases h
    | ok v =>
      rw [he] at h
      cases hrest : st.encodeList ts with
      | error e => rw [hrest] at h; cases h
      | ok vs0 =>
        rw [hrest] at h
        cases h
        cases i with
        | zero => simpa using he
        | succ j =>
          have hj : j < ts.length := Nat.lt_of_succ_lt_succ hi
          have hv0 : j < vs0.length := Nat.lt_of_succ_lt_succ hv
          simpa using ih vs0 hrest j hj hv0

/-- If any element of the batch fails to encode, the whole batch encode
fails (propagating some failure message). -/
theorem SentenceTransformer.encodeList_error_of_mem (st : SentenceTransformer) :
    ∀ (ts : List String) (t : String) (e : String),
      t ∈ ts → st.encode t = Except.error e →
      ∃ e2, st.encodeList ts = Except.error e2 := by
  intro ts
  induction ts with
  | nil =>
    intro t e hmem
    cases hmem
  | cons a ts ih =>
    intro t e hmem hfail
    simp only [SentenceTransformer.encodeList]
    cases he : st.encode a with
    | error e0 => exact ⟨e0, rfl⟩
    | ok v =>
      have hmem2 : t ∈ ts := by
        cases hmem with
        | head => rw [hfail] at he; cases he
        | tail _ h => exact h
      obtain ⟨e2, h2⟩ := ih t e hmem2 hfail
      exact ⟨e2, by rw [h2]⟩

/-- A run of get_model calls that starts with the instance already created
never constructs another instance. -/
theorem run_get_model_some (create : Unit → EmbeddingModel) :
    ∀ (n : Nat) (m : EmbeddingModel),
      run_get_model create n (some m) = (some m, 0) := by
  intro n
  induction n with
  | zero => intro m; simp [run_get_model]
  | succ k ih =>
    intro m
    simp [run_get_model, get_model, get_model_creations, ih m]

/-- Creations performed by a run of get_model calls from any state. -/
theorem run_get_model_creations_le_one (create : Unit → EmbeddingModel) :
    ∀ (n : Nat) (state : Option EmbeddingModel),
      (run_get_model create n state).2 ≤ 1 := by
  intro n state
  cases state with
  | some m => simp [run_get_model_some]
  | none =>
    cases n with
    | zero => simp [run_get_model]
    | succ k =>
      simp [run_get_model, get_model, get_model_creations,
        run_get_model_some create k (create ())]

/-- Concrete model used as a witness: every text encodes to 384 zeros. -/
def encode384 (_ : String) : Except String (List Float) :=
  Except.ok (List.replicate 384 (0.0 : Float))

/-- Witness SentenceTransformer of dimension 384 that always succeeds. -/
def st384 : SentenceTransformer :=
  ⟨encode384, 384, by intro t v h; cases h; exact List.length_replicate 384 (0.0 : Float)⟩

/-- Witness library: every name and device loads st384. -/
def lib384 : ModelLibrary :=
  ⟨fun _ _ => st384, by intro d; rfl⟩

/-- Witness wrapper instance built like the service singleton: default name,
no accelerator. -/
def m384 : EmbeddingModel := EmbeddingModel.initDefault lib384 false

/-- Concrete model used as a failure witness: the text bad fails with boom,
everything else encodes to 384 zeros. -/
def encodeMixed (t : String) : Except String (List Float) :=
  if t = "bad" then Except.error "boom" else Except.ok (List.replicate 384 (0.0 : Float))

/-- Witness SentenceTransformer whose encode fails exactly on the text bad. -/
def stMixed : SentenceTransformer := by
  refine ⟨encodeMixed, 384, ?_⟩
  intro t v h
  unfold encodeMixed at h
  by_cases hb : t = "bad"
  · rw [if_pos hb] at h; cases h
  · rw [if_neg hb] at h; cases h; exact List.length_replicate 384 (0.0 : Float)

/-- Witness library around stMixed. -/
def libMixed : ModelLibrary :=
  ⟨fun _ _ => stMixed, by intro d; rfl⟩

/-- Witness wrapper instance around stMixed, built with the default name. -/
def mMixed : EmbeddingModel := EmbeddingModel.initDefault libMixed false

/-- Claim C1: for every ordered sequence of texts, a successful batch call
generate_embeddings_batch returns one row per input, and the row at every
valid index equals what generate_embedding returns for the text at that
index — the batch path and the single path produce the same vector. -/
theorem C1_batch_single_consistency (m : EmbeddingModel) (ts : List String)
    (vs : List (List Float)) (h : m.generate_embeddings_batch ts = Except.ok vs) :
    vs.length = ts.length ∧
    ∀ (i : Nat) (hi : i < ts.length) (hv : i < vs.length),
      m.generate_embedding (ts.get ⟨i, hi⟩) = Except.ok (vs.get ⟨i, hv⟩) := by
  refine ⟨SentenceTransformer.encodeList_length m.model ts vs h, ?_⟩
  intro i hi hv
  exact SentenceTransformer.encodeList_get m.model ts vs h i hi hv

/-- Concrete instantiation of C1 on the witness model and a two-text batch. -/
theorem C1_batch_single_consistency_witness :
    m384.generate_embedding ((["a", "b"] : List String).get ⟨0, by decide⟩) =
      Except.ok (([List.replicate 384 (0.0 : Float), List.replicate 384 (0.0 : Float)]).get ⟨0, by decide⟩) :=
  (C1_batch_single_consistency m384 ["a", "b"]
    [List.replicate 384 (0.0 : Float), List.replicate 384 (0.0 : Float)] rfl).2 0 (by decide) (by decide)

/-- Claim C2: on both generate routes, a request whose model field differs
from the active model name is answered with the 400 failure and is never
served by another model. -/
theorem C2_model_mismatch_400 (m : EmbeddingModel) (r : EmbeddingRequest)
    (rb : BatchEmbeddingRequest) (h1 : r.model ≠ m.model_name)
    (h2 : rb.model ≠ m.model_name) :
    generate_embedding_route m r =
      HttpReply.failure 400 ("Model " ++ r.model ++ " not supported. Only " ++ m.model_name ++ " is available.") ∧
    generate_embeddings_batch_route m rb =
      HttpReply.failure 400 ("Model " ++ rb.model ++ " not supported. Only " ++ m.model_name ++ " is available.") := by
  constructor
  · unfold generate_embedding_route
    rw [if_pos h1]
  · unfold generate_embeddings_batch_route
    rw [if_pos h2]

/-- Concrete instantiation of C2 on the witness model with name bogus. -/
theorem C2_model_mismatch_400_witness :
    generate_embedding_route m384 ⟨"x", "bogus"⟩ =
      HttpReply.failure 400 ("Model " ++ "bogus" ++ " not supported. Only " ++ m384.model_name ++ " is available.") ∧
    generate_embeddings_batch_route m384 ⟨["x"], "bogus"⟩ =
      HttpReply.failure 400 ("Model " ++ "bogus" ++ " not supported. Only " ++ m384.model_name ++ " is available.") :=
  C2_model_mismatch_400 m384 ⟨"x", "bogus"⟩ ⟨["x"], "bogus"⟩ (by decide) (by decide)

/-- Claim C3: for a wrapper created with the default model name, every
successful single encoding of a non-empty text has length get_dimension,
and get_dimension is 384. -/
theorem C3_dimension_postcondition (lib : ModelLibrary) (cuda : Bool)
    (t : String) (v : List Float) (ht : t ≠ "")
    (h : (EmbeddingModel.initDefault lib cuda).generate_embedding t = Except.ok v) :
    v.length = (EmbeddingModel.initDefault lib cuda).get_dimension ∧
    (EmbeddingModel.initDefault lib cuda).get_dimension = 384 := by
  refine ⟨(EmbeddingModel.initDefault lib cuda).model.encode_dim t v h, ?_⟩
  exact lib.load_default_dim (if cuda then "cuda" else "cpu")

/-- Concrete instantiation of C3 on the witness library. -/
theorem C3_dimension_postcondition_witness :
    (List.replicate 384 (0.0 : Float)).length =
      (EmbeddingModel.initDefault lib384 false).get_dimension ∧
    (EmbeddingModel.initDefault lib384 false).get_dimension = 384 :=
  C3_dimension_postcondition lib384 false "hello" (List.replicate 384 (0.0 : Float))
    (by decide) rfl

/-- Claim C4: a successful batch call returns exactly one vector per input,
and the empty batch returns the empty list rather than an error. -/
theorem C4_batch_length_preservation (m : EmbeddingModel) (ts : List String)
    (vs : List (List Float)) (h : m.generate_embeddings_batch ts = Except.ok vs) :
    vs.length = ts.length ∧ m.generate_embeddings_batch [] = Except.ok [] :=
  ⟨SentenceTransformer.encodeList_length m.model ts vs h, rfl⟩

/-- Concrete instantiation of C4 on the witness model. -/
theorem C4_batch_length_preservation_witness :
    ([List.replicate 384 (0.0 : Float)] : List (List Float)).length =
      (["a"] : List String).length ∧
    m384.generate_embeddings_batch [] = Except.ok [] :=
  C4_batch_length_preservation m384 ["a"] [List.replicate 384 (0.0 : Float)] rfl

/-- Claim C5: a single request whose text is missing or empty, and a batch
request whose texts list is missing or empty, are answered 422 by the
schema layer; the answer is the same whatever model instance is active, so
neither the model name check nor any encoding is reached. -/
theorem C5_schema_validation_422 (raw : RawEmbeddingRequest)
    (rawB : RawBatchEmbeddingRequest)
    (h1 : raw.text = none ∨ raw.text = some "")
    (h2 : rawB.texts = none ∨ rawB.texts = some []) :
    ∀ m mo : EmbeddingModel,
      (handle_generate m raw).status = 422 ∧
      handle_generate m raw = handle_generate mo raw ∧
      (handle_generate_batch m rawB).status = 422 ∧
      handle_generate_batch m rawB = handle_generate_batch mo rawB := by
  intro m mo
  have hs : ∃ d, validateEmbeddingRequest raw = Except.error d := by
    cases h1 with
    | inl h =>
      exact ⟨"field required: text", by simp [validateEmbeddingRequest, h]⟩
    | inr h =>
      exact ⟨"ensure this value has at least 1 characters",
        by simp [validateEmbeddingRequest, h]⟩
  have hbs : ∃ d, validateBatchEmbeddingRequest rawB = Except.error d := by
    cases h2 with
    | inl h =>
      exact ⟨"field required: texts", by simp [validateBatchEmbeddingRequest, h]⟩
    | inr h =>
      exact ⟨"ensure this value has at least 1 items",
        by simp [validateBatchEmbeddingRequest, h]⟩
  obtain ⟨d, hd⟩ := hs
  obtain ⟨db, hdb⟩ := hbs
  refine ⟨?_, ?_, ?_, ?_⟩
  · simp [handle_generate, hd, HttpReply.status]
  · simp [handle_generate, hd]
  · simp [handle_generate_batch, hdb, HttpReply.status]
  · simp [handle_generate_batch, hdb]

/-- Concrete instantiation of C5 on empty text and empty texts list. -/
theorem C5_schema_validation_422_witness :
    (handle_generate m384 ⟨some "", some "all-MiniLM-L6-v2"⟩).status = 422 ∧
    handle_generate m384 ⟨some "", some "all-MiniLM-L6-v2"⟩ =
      handle_generate mMixed ⟨some "", some "all-MiniLM-L6-v2"⟩ ∧
    (handle_generate_batch m384 ⟨some [], some "all-MiniLM-L6-v2"⟩).status = 422 ∧
    handle_generate_batch m384 ⟨some [], some "all-MiniLM-L6-v2"⟩ =
      handle_generate_batch mMixed ⟨some [], some "all-MiniLM-L6-v2"⟩ :=
  C5_schema_validation_422 ⟨some "", some "all-MiniLM-L6-v2"⟩
    ⟨some [], some "all-MiniLM-L6-v2"⟩ (Or.inr rfl) (Or.inr rfl) m384 mMixed

/-- Claim C6: two runs of the single route with the same raw request, the
second starting from the state the first left behind, produce the same
reply — with model and device unchanged, identical text yields an identical
vector. -/
theorem C6_determinism (create : Unit → EmbeddingModel)
    (state : Option EmbeddingModel) (raw : RawEmbeddingRequest) :
    (handle_generate_stateful create
        (handle_generate_stateful create state raw).2 raw).1 =
      (handle_generate_stateful create state raw).1 := by
  unfold handle_generate_stateful
  cases hv : validateEmbeddingRequest raw with
  | error d => simp
  | ok req =>
    cases state with
    | some m => rfl
    | none => rfl

/-- Claim C7: when the model name matches, an encoding failure on the
single route is answered 500 with the original message embedded in the
detail, and an encoding failure of any batch element fails the entire
batch with a 500 (no partial success). -/
theorem C7_catch_all_500 (m : EmbeddingModel) (r : EmbeddingRequest)
    (rb : BatchEmbeddingRequest) (e eb t : String)
    (h1 : r.model = m.model_name) (he : m.model.encode r.text = Except.error e)
    (h2 : rb.model = m.model_name) (ht : t ∈ rb.texts)
    (hb : m.model.encode t = Except.error eb) :
    generate_embedding_route m r =
      HttpReply.failure 500 ("Failed to generate embedding: " ++ e) ∧
    ∃ e2, generate_embeddings_batch_route m rb =
      HttpReply.failure 500 ("Failed to generate embeddings: " ++ e2) := by
  constructor
  · unfold generate_embedding_route
    rw [if_neg (by simp [h1])]
    unfold EmbeddingModel.generate_embedding
    rw [he]
  · obtain ⟨e2, h2e⟩ :=
      SentenceTransformer.encodeList_error_of_mem m.model rb.texts t eb ht hb
    refine ⟨e2, ?_⟩
    unfold generate_embeddings_batch_route
    rw [if_neg (by simp [h2])]
    unfold EmbeddingModel.generate_embeddings_batch
    rw [h2e]

/-- Concrete instantiation of C7 on the witness model that fails on the
text bad. -/
theorem C7_catch_all_500_witness :
    generate_embedding_route mMixed ⟨"bad", "all-MiniLM-L6-v2"⟩ =
      HttpReply.failure 500 ("Failed to generate embedding: " ++ "boom") :=
  (C7_catch_all_500 mMixed ⟨"bad", "all-MiniLM-L6-v2"⟩
    ⟨["ok", "bad"], "all-MiniLM-L6-v2"⟩ "boom" "boom" "bad"
    rfl rfl rfl (by simp) rfl).1

/-- The model field of a validated single request is the raw field when
present, else the declared default. -/
theorem validateEmbeddingRequest_model (raw : RawEmbeddingRequest)
    (req : EmbeddingRequest) (h : validateEmbeddingRequest raw = Except.ok req) :
    req.model = raw.model.getD defaultModelName := by
  unfold validateEmbeddingRequest at h
  cases hr : raw.text with
  | none => rw [hr] at h; cases h
  | some t =>
    rw [hr] at h
    dsimp only at h
    by_cases hl : t.length < 1
    · rw [if_pos hl] at h; cases h
    · rw [if_neg hl] at h; cases h; rfl

/-- The model field of a validated batch request is the raw field when
present, else the declared default. -/
theorem validateBatchEmbeddingRequest_model (raw : RawBatchEmbeddingRequest)
    (req : BatchEmbeddingRequest) (h : validateBatchEmbeddingRequest raw = Except.ok req) :
    req.model = raw.model.getD defaultModelName := by
  unfold validateBatchEmbeddingRequest at h
  cases hr : raw.texts with
  | none => rw [hr] at h; cases h
  | some ts =>
    rw [hr] at h
    dsimp only at h
    by_cases hl : ts.length < 1
    · rw [if_pos hl] at h; cases h
    · rw [if_neg hl] at h; cases h; rfl

/-- Claim C8: the wrapper passes the empty string straight to the model
without rejecting it, a successful result is a vector of length
get_dimension, and the same empty text sent over HTTP is answered 422. -/
theorem C8_empty_string_model_layer (m : EmbeddingModel) (v : List Float)
    (h : m.generate_embedding "" = Except.ok v) :
    m.generate_embedding "" = m.model.encode "" ∧
    v.length = m.get_dimension ∧
    (handle_generate m ⟨some "", some m.model_name⟩).status = 422 := by
  refine ⟨rfl, m.model.encode_dim "" v h, ?_⟩
  simp [handle_generate, validateEmbeddingRequest, HttpReply.status]

/-- Concrete instantiation of C8 on the witness model. -/
theorem C8_empty_string_model_layer_witness :
    m384.generate_embedding "" = m384.model.encode "" ∧
    (List.replicate 384 (0.0 : Float)).length = m384.get_dimension ∧
    (handle_generate m384 ⟨some "", some m384.model_name⟩).status = 422 :=
  C8_empty_string_model_layer m384 (List.replicate 384 (0.0 : Float)) rfl

/-- Claim C9: get_model run against the explicit global state creates the
instance at most once over any number of calls, returns the already
created instance unchanged, leaves the state holding exactly the returned
instance, and preserves the instance name and device. -/
theorem C9_singleton_invariant (create : Unit → EmbeddingModel)
    (m : EmbeddingModel) (n : Nat) (state : Option EmbeddingModel) :
    get_model create (some m) = (m, some m) ∧
    (get_model create state).2 = some (get_model create state).1 ∧
    (run_get_model create n state).2 ≤ 1 ∧
    (get_model create (some m)).1.model_name = m.model_name ∧
    (get_model create (some m)).1.device = m.device := by
  refine ⟨rfl, ?_, run_get_model_creations_le_one create n state, rfl, rfl⟩
  cases state with
  | some m0 => rfl
  | none => rfl

/-- Claim C10: a raw request to either route that omits the model field is
never answered with a 400, because the schema default equals the name the
default constructed wrapper carries. -/
theorem C10_default_model_never_400 (lib : ModelLibrary) (cuda : Bool)
    (raw : RawEmbeddingRequest) (rawB : RawBatchEmbeddingRequest)
    (h1 : raw.model = none) (h2 : rawB.model = none) :
    (handle_generate (EmbeddingModel.initDefault lib cuda) raw).status ≠ 400 ∧
    (handle_generate_batch (EmbeddingModel.initDefault lib cuda) rawB).status ≠ 400 := by
  constructor
  · cases hv : validateEmbeddingRequest raw with
    | error d => simp [handle_generate, hv, HttpReply.status]
    | ok req =>
      have hm : req.model = (EmbeddingModel.initDefault lib cuda).model_name := by
        rw [validateEmbeddingRequest_model raw req hv, h1]
        rfl
      simp only [handle_generate, hv]
      unfold generate_embedding_route
      rw [if_neg (by simp [hm])]
      cases he : (EmbeddingModel.initDefault lib cuda).generate_embedding req.text with
      | ok v => simp [HttpReply.status]
      | error e => simp [HttpReply.status]
  · cases hv : validateBatchEmbeddingRequest rawB with
    | error d => simp [handle_generate_batch, hv, HttpReply.status]
    | ok req =>
      have hm : req.model = (EmbeddingModel.initDefault lib cuda).model_name := by
        rw [validateBatchEmbeddingRequest_model rawB req hv, h2]
        rfl
      simp only [handle_generate_batch, hv]
      unfold generate_embeddings_batch_route
      rw [if_neg (by simp [hm])]
      cases he : (EmbeddingModel.initDefault lib cuda).generate_embeddings_batch req.texts with
      | ok v => simp [HttpReply.status]
      | error e => simp [HttpReply.status]

/-- Concrete instantiation of C10 on the witness library with the model
field absent from both raw requests. -/
theorem C10_default_model_never_400_witness :
    (handle_generate (EmbeddingModel.initDefault lib384 false) ⟨some "x", none⟩).status ≠ 400 ∧
    (handle_generate_batch (EmbeddingModel.initDefault lib384 false) ⟨some ["x"], none⟩).status ≠ 400 :=
  C10_default_model_never_400 lib384 false ⟨some "x", none⟩ ⟨some ["x"], none⟩ rfl rfl
